import Mathlib

/-!
Verification development for the eqho-tow-scrape enrichment pipeline.

The definitions below are a shallow embedding of the Python sources:
  * app/services/website_scraper_service.py  (content classifier, single-URL scrape)
  * app/services/enrichment_service.py       (per-company enrichment)
  * app/services/scraping_orchestrator.py    (batch scraper, crawl loop, stale refresh)
  * app/services/company_service.py          (create_or_update_company upsert)
  * app/services/apify_service.py            (_map_apify_result listing mapper)

Modelling conventions:
  * Python strings are Lean `String`; `s.lower()` is `pyLower`,
    `a in b` (substring test) is `pyIn a b`.
  * Python floats appearing only as confidence literals are modelled as `ℚ`.
  * `datetime.utcnow()` is an abstract clock tick `now : Nat`.
  * Network effects are oracles: a page fetch is a `FetchOutcome` value,
    an enrichment pass that raises (missing row, storage error) is the
    `EntityOutcome.enrichError` case.
  * The regex-based hours extractor `extract_hours_of_operation` is kept as an
    explicit function parameter `hoursFn`; no verified claim constrains its
    output, and all batch theorems are universally quantified over it.
-/

namespace TowScrape

/-! ## Content classifier: `WebsiteScraperService.check_impound_service`
    (website_scraper_service.py lines 104-159) -/

/-- Substring occurrence over character lists: `needle` occurs contiguously in
    the scanned list. -/
def infixIn (needle : List Char) : List Char → Bool
  | [] => needle.isEmpty
  | c :: rest => needle.isPrefixOf (c :: rest) || infixIn needle rest

/-- Python substring test `needle in haystack`. -/
def pyIn (needle haystack : String) : Bool :=
  infixIn needle.data haystack.data

/-- Python `str.lower()` (faithful on the ASCII content the pipeline handles). -/
def pyLower (s : String) : String :=
  String.mk (s.data.map Char.toLower)

/-- The fixed positive keyword list of `check_impound_service`. -/
def impound_keywords : List String :=
  [ "impound"
  , "impound lot"
  , "impound yard"
  , "vehicle impound"
  , "car impound"
  , "towing impound"
  , "impoundment"
  , "impounded vehicles"
  , "impound storage"
  , "police impound" ]

/-- The fixed negation phrase list of `check_impound_service`. -/
def negative_keywords : List String :=
  [ "we do not impound"
  , "no impound"
  , "not an impound" ]

/-- Return value of `check_impound_service` (the Python dict with keys
    `has_impound` and `confidence`). -/
structure ImpoundResult where
  has_impound : Bool
  confidence : ℚ
  deriving Repr, DecidableEq

/-- Embedding of `check_impound_service(html, text)`: negation phrases win
    immediately; otherwise one hit is counted per keyword per source
    (lowercased text and lowercased html scanned independently). -/
def check_impound_service (html text : String) : ImpoundResult :=
  let text_lower := pyLower text
  let html_lower := pyLower html
  if negative_keywords.any (fun k => pyIn k text_lower || pyIn k html_lower) then
    { has_impound := false, confidence := 9/10 }
  else
    let matchCount := impound_keywords.foldl
      (fun acc k =>
        acc + (if pyIn k text_lower then 1 else 0) + (if pyIn k html_lower then 1 else 0)) 0
    if matchCount = 0 then { has_impound := false, confidence := 3/10 }
    else if matchCount = 1 then { has_impound := true, confidence := 6/10 }
    else if matchCount = 2 then { has_impound := true, confidence := 8/10 }
    else { has_impound := true, confidence := 95/100 }

/-- Number of keyword hits, counted separately in the lowercase text and in the
    lowercase html and summed (one hit per keyword per source). -/
def matchTotal (html text : String) : Nat :=
  impound_keywords.countP (fun k => pyIn k (pyLower text))
    + impound_keywords.countP (fun k => pyIn k (pyLower html))

/-! ## Single-URL scrape, per-company enrichment, batch scraper
    (website_scraper_service.py lines 28-78, enrichment_service.py lines 18-75,
    scraping_orchestrator.py lines 174-206 and 247-297) -/

/-- Payload shape produced by `extract_hours_of_operation`: per-day entry
    strings plus the 24/7 flag key. The extractor itself is regex-driven and no
    claim constrains it, so everywhere below it is an explicit function
    parameter `hoursFn` and the theorems quantify over it. -/
structure HoursData where
  entries : List (String × String) := []
  open_24_7 : Bool := false
  deriving Repr, DecidableEq

/-- Oracle for one page fetch (`page.goto` plus content extraction): either the
    rendered html and visible body text, or any fetch failure (timeout, DNS,
    HTTP error, non-HTML) — all of which surface as exceptions caught inside
    `scrape_website`. -/
inductive FetchOutcome where
  | ok (html text : String)
  | err
  deriving Repr, DecidableEq

/-- Return dict of `scrape_website`. -/
structure ScrapeResult where
  hours : Option HoursData
  has_impound : Option Bool
  impound_confidence : ℚ
  status : String
  deriving Repr, DecidableEq

/-- Python `url.startswith(("http://", "https://"))`. -/
def startsWithHttp (url : String) : Bool :=
  "http://".data.isPrefixOf url.data || "https://".data.isPrefixOf url.data

/-- Embedding of `WebsiteScraperService.scrape_website` (lines 28-78). Besides
    the Python return dict it reports whether the fetcher was invoked (`false`
    exactly on the early no_website return, which precedes any fetch). -/
def scrape_website (hoursFn : String → String → Option HoursData)
    (url : String) (fetch : FetchOutcome) : ScrapeResult × Bool :=
  if url = "" || !startsWithHttp url then
    ({ hours := none, has_impound := none, impound_confidence := 0,
       status := "no_website" }, false)
  else
    match fetch with
    | .ok html text =>
        ({ hours := hoursFn html text
         , has_impound := some (check_impound_service html text).has_impound
         , impound_confidence := (check_impound_service html text).confidence
         , status := "success" }, true)
    | .err =>
        ({ hours := none, has_impound := none, impound_confidence := 0,
           status := "failed" }, true)

/-- The columns of app/models/company.py read or written by the embedded
    scraping-pipeline paths; the remaining columns are untouched by that code. -/
structure Company where
  name : String := ""
  zone_id : Nat := 0
  website : Option String := none
  phone_dispatch : Option String := none
  review_count : Option Int := none
  fleet_size : Option String := none
  hours_website : Option HoursData := none
  has_impound_service : Option Bool := none
  impound_confidence : Option ℚ := none
  website_scraped_at : Option Nat := none
  website_scrape_status : Option String := none
  scraping_stage : Option String := none
  deriving Repr, DecidableEq

/-- `EnrichmentService.detect_fleet_size`: review-count heuristic; Python
    truthiness makes both `None` and `0` fall through to `None`. -/
def detect_fleet_size (c : Company) : Option String :=
  match c.review_count with
  | some rc =>
      if rc ≠ 0 then
        if rc > 500 then some "large"
        else if rc > 100 then some "medium"
        else some "small"
      else none
  | none => none

/-- `EnrichmentService.detect_dispatch_line`: `bool(company.phone_dispatch)`. -/
def detect_dispatch_line (c : Company) : Bool :=
  match c.phone_dispatch with
  | some s => s ≠ ""
  | none => false

/-- Embedding of `EnrichmentService.enrich_company` for an existing company row
    (lines 18-58): builds `enrichment_data` from the website scrape (only when
    `company.website` is truthy), the fleet heuristic and the dispatch check,
    then applies it to the row. A non-success scrape only records its status
    string — it does not raise. Second component: whether the fetcher was
    invoked. The appended `EnrichmentSnapshot` audit record is read by no
    embedded claim and is not carried in the state. -/
def enrich_company (hoursFn : String → String → Option HoursData) (now : Nat)
    (c : Company) (fetch : FetchOutcome) : Company × Bool :=
  let scraped : Option (ScrapeResult × Bool) :=
    match c.website with
    | some w => if w ≠ "" then some (scrape_website hoursFn w fetch) else none
    | none => none
  let c1 : Company :=
    match scraped with
    | some p =>
        if p.1.status = "success" then
          { c with hours_website := p.1.hours
                 , has_impound_service := p.1.has_impound
                 , impound_confidence := some p.1.impound_confidence
                 , website_scraped_at := some now
                 , website_scrape_status := some "success" }
        else { c with website_scrape_status := some p.1.status }
    | none => c
  let c2 : Company :=
    match detect_fleet_size c with
    | some fs => { c1 with fleet_size := some fs }
    | none => c1
  let c3 : Company :=
    if detect_dispatch_line c then { c2 with phone_dispatch := c.phone_dispatch } else c2
  (c3, match scraped with | some p => p.2 | none => false)

/-- Per-entity oracle for one batch slot: either the page-fetch outcome, or an
    exception raised out of the `enrich_company` call itself (missing row,
    repository failure) — the only way the except-branch of `scrape_with_limit`
    is reached. -/
inductive EntityOutcome where
  | fetch (f : FetchOutcome)
  | enrichError
  deriving Repr, DecidableEq

/-- Result of one `scrape_with_limit` task. -/
structure EntityResult where
  company : Company
  counted_success : Bool
  fetcher_called : Bool
  deriving Repr, DecidableEq

/-- Embedding of the `scrape_with_limit` task body of
    `ScrapingOrchestrator._scrape_websites_batch` (lines 183-200): when
    `enrich_company` returns (it does for every fetch outcome), the row is
    stamped stage=website_scraped, scraped_at=now, status=success and counted
    as a success; only an exception from `enrich_company` reaches the
    except-branch, which stamps status=failed and stage=failed. -/
def scrape_with_limit (hoursFn : String → String → Option HoursData) (now : Nat)
    (c : Company) (o : EntityOutcome) : EntityResult :=
  match o with
  | .fetch f =>
      let p := enrich_company hoursFn now c f
      { company := { p.1 with scraping_stage := some "website_scraped"
                            , website_scraped_at := some now
                            , website_scrape_status := some "success" }
      , counted_success := true
      , fetcher_called := p.2 }
  | .enrichError =>
      { company := { c with website_scrape_status := some "failed"
                          , scraping_stage := some "failed" }
      , counted_success := false
      , fetcher_called := false }

/-- The `{'success': int, 'failed': int}` aggregate of the batch. -/
structure BatchCounts where
  success : Nat
  failed : Nat
  deriving Repr, DecidableEq

/-- Embedding of `_scrape_websites_batch` (lines 174-206): one
    `scrape_with_limit` task per company; the two counters are incremented
    commutatively, so the aggregate equals the counts over the per-entity
    results regardless of the interleaving (the interleaving itself is the
    `BatchStep` transition system further below). -/
def scrape_websites_batch (hoursFn : String → String → Option HoursData)
    (now : Nat) (items : List (Company × EntityOutcome)) :
    List EntityResult × BatchCounts :=
  let rs := items.map (fun p => scrape_with_limit hoursFn now p.1 p.2)
  (rs, { success := rs.countP (fun r => r.counted_success)
       , failed := rs.countP (fun r => !r.counted_success) })

/-- The SQLAlchemy selection predicate of `refresh_stale_companies`
    (lines 265-279), with SQL three-valued comparison semantics: a NULL
    `website_scraped_at` passes the staleness disjunct through IS NULL, while a
    NULL `website_scrape_status` fails the `!= 'no_website'` comparison. -/
def staleSelect (cutoff : Nat) (zoneFilter : Option Nat) (c : Company) : Bool :=
  (c.website_scraped_at.isNone
      || (match c.website_scraped_at with | some t => t < cutoff | none => false))
    && c.website.isSome
    && (match c.website_scrape_status with | some s => s ≠ "no_website" | none => false)
    && (match zoneFilter with | some z => c.zone_id = z | none => true)

/-- Return dict of `refresh_stale_companies`. -/
structure RefreshStats where
  companies_processed : Nat
  websites_scraped : Nat
  websites_failed : Nat
  deriving Repr, DecidableEq

/-- Embedding of `refresh_stale_companies` (lines 247-297): `cutoff` stands for
    `utcnow() - timedelta(days=days_stale)` on the abstract clock, and `oracle`
    supplies each selected company's per-entity outcome. -/
def refresh_stale_companies (hoursFn : String → String → Option HoursData)
    (now : Nat) (db : List Company) (oracle : Company → EntityOutcome)
    (cutoff : Nat) (zoneFilter : Option Nat) (lim : Nat) :
    List EntityResult × RefreshStats :=
  let stale := (db.filter (staleSelect cutoff zoneFilter)).take lim
  if stale.isEmpty then
    ([], { companies_processed := 0, websites_scraped := 0, websites_failed := 0 })
  else
    let out := scrape_websites_batch hoursFn now (stale.map (fun c => (c, oracle c)))
    (out.1, { companies_processed := stale.length
            , websites_scraped := out.2.success
            , websites_failed := out.2.failed })

/-! ## Discovery-result mapper: `ApifyService._map_apify_result`
    (apify_service.py lines 105-194) -/

/-- Split a character list at every separator character, keeping empty groups
    (the behaviour of Python `str.split(sep)`). -/
def splitOnPred (p : Char → Bool) (l : List Char) : List (List Char) :=
  l.foldr
    (fun c acc =>
      if p c then [] :: acc
      else match acc with
        | [] => [[c]]
        | g :: gs => (c :: g) :: gs)
    [[]]

/-- Python `str.strip()`: drop leading and trailing whitespace. -/
def pyStrip (s : String) : String :=
  String.mk (((s.data.dropWhile Char.isWhitespace).reverse.dropWhile
    Char.isWhitespace).reverse)

/-- Python `address.split(",")`. -/
def pySplitComma (s : String) : List String :=
  (splitOnPred (fun c => c = ',') s.data).map String.mk

/-- Python `s.split()` with no argument: split on whitespace runs, dropping
    empty groups. -/
def pySplitWs (s : String) : List String :=
  ((splitOnPred Char.isWhitespace s.data).filter (fun g => !g.isEmpty)).map String.mk

/-- The keys of one raw Apify listing dict that `_map_apify_result` reads.
    Keys read with `.get(key, "")` default to `""` when absent; for the others
    `none` models an absent (or, for `location` and `openingHours`, falsy
    empty-dict) value; each entry of `images` is reduced to the value of its
    own "url" key. -/
structure ApifyItem where
  title : String := ""
  address : String := ""
  phone : String := ""
  website : String := ""
  url : String := ""
  images : List (Option String) := []
  location : Option (Option ℚ × Option ℚ) := none
  rating : Option ℚ := none
  reviewsCount : Int := 0
  reviews : List String := []
  openingHours : Option (List (String × String)) := none
  category : String := ""
  description : String := ""
  deriving Repr, DecidableEq

/-- The company dict built by `_map_apify_result`; keys added only when their
    source value is truthy are `Option` fields defaulting to `none`. -/
structure MappedCompany where
  name : String
  phone_primary : String
  website : String
  google_business_url : String
  address_street : String
  address_city : String
  address_state : String
  address_zip : String
  rating : Option ℚ
  review_count : Option Int
  hours : Option (List (String × String))
  source : String
  latitude : Option ℚ := none
  longitude : Option ℚ := none
  photos : Option (List String) := none
  category : Option String := none
  description : Option String := none
  reviews : Option (List String) := none
  deriving Repr, DecidableEq

/-- Embedding of `_map_apify_result` (lines 105-194): a record is dropped
    (None) exactly when `not title or not google_maps_url`; otherwise the
    address is parsed on commas, state and zip from the whitespace-split third
    component, and the result dict is assembled with truthiness-guarded
    optional keys (`phone or ""` collapses to `phone` in the string model). -/
def mapApifyResult (item : ApifyItem) : Option MappedCompany :=
  let photos := item.images.filterMap (fun o =>
    match o with
    | some u => if u ≠ "" then some u else none
    | none => none)
  let latitude := match item.location with | some l => l.1 | none => none
  let longitude := match item.location with | some l => l.2 | none => none
  if item.title = "" || item.url = "" then none
  else
    let address_parts := if item.address ≠ "" then pySplitComma item.address else []
    let street := match address_parts with | [] => "" | p :: _ => pyStrip p
    let city := if address_parts.length > 1 then pyStrip (address_parts.getD 1 "") else ""
    let state_zip := if address_parts.length > 2 then pyStrip (address_parts.getD 2 "") else ""
    let stateAndZip : String × String :=
      if state_zip ≠ "" then
        (let parts := pySplitWs state_zip
         if parts.length ≥ 2 then (parts.getD 0 "", parts.getD (parts.length - 1) "")
         else ("", ""))
      else ("", "")
    let latLngOk : Bool :=
      (match latitude with | some la => la ≠ 0 | none => false)
        && (match longitude with | some lo => lo ≠ 0 | none => false)
    some { name := item.title
         , phone_primary := item.phone
         , website := item.website
         , google_business_url := item.url
         , address_street := street
         , address_city := city
         , address_state := stateAndZip.1
         , address_zip := stateAndZip.2
         , rating := match item.rating with
             | some q => if q ≠ 0 then some q else none
             | none => none
         , review_count := if item.reviewsCount ≠ 0 then some item.reviewsCount else none
         , hours := match item.openingHours with
             | some l => if l.isEmpty then none else some l
             | none => none
         , source := "apify_google_maps"
         , latitude := if latLngOk then latitude else none
         , longitude := if latLngOk then longitude else none
         , photos := if photos.isEmpty then none else some photos
         , category := if item.category ≠ "" then some item.category else none
         , description := if item.description ≠ "" then some item.description else none
         , reviews := if item.reviews.isEmpty then none else some (item.reviews.take 5) }

/-! ## Upsert and crawl-loop persistence
    (company_service.py lines 13-44, scraping_orchestrator.py lines 104-151)

    The create/update path is driven by a dynamic Python dict and
    `setattr`/`getattr` over arbitrary column names, so here a row is its
    attribute map `String → Option PyVal` (with `none` for SQL NULL), and a
    company dict maps a key to `none` (absent), `some none` (present with
    value None) or `some (some v)`. -/

/-- Dynamic Python value stored in a company dict or ORM attribute. `vId`
    stands for opaque identifiers (UUIDs); list/dict payloads (photos, review
    payloads, hours) are flattened to the two list constructors. -/
inductive PyVal where
  | vStr (s : String)
  | vRat (q : ℚ)
  | vInt (n : Int)
  | vBool (b : Bool)
  | vId (n : Nat)
  | vStrList (l : List String)
  | vPairs (l : List (String × String))
  deriving Repr, DecidableEq

/-- Python truthiness of a `PyVal`. -/
def pyTruthy : PyVal → Bool
  | .vStr s => s != ""
  | .vRat q => q != 0
  | .vInt n => n != 0
  | .vBool b => b
  | .vId _ => true
  | .vStrList l => !l.isEmpty
  | .vPairs l => !l.isEmpty

/-- A company dict: `none` = key absent, `some none` = key present with value
    None, `some (some v)` = key present with value `v`. Python dict keys are
    unique, which the functional representation enforces. -/
def PyDict := String → Option (Option PyVal)

/-- One persisted company row, as its ORM attribute map. -/
structure UCompany where
  fields : String → Option PyVal

/-- `setattr(entity, key, value)`. -/
def setField (e : UCompany) (k : String) (v : Option PyVal) : UCompany :=
  ⟨fun key => if key = k then v else e.fields key⟩

/-- The update branch of `create_or_update_company` (lines 28-36): every
    present key with a non-None value overwrites the attribute, all other
    attributes keep their stored value, then `existing.zone_id = zone_id`. -/
def updateEntity (e : UCompany) (data : PyDict) (zone : PyVal) : UCompany :=
  ⟨fun key =>
    if key = "zone_id" then some zone
    else match data key with
      | some (some v) => some v
      | _ => e.fields key⟩

/-- The create branch (lines 38-44): `company_data["zone_id"] = zone_id`, then
    `Company(**company_data)`; keys absent from the dict are NULL columns. -/
def createEntity (data : PyDict) (zone : PyVal) : UCompany :=
  ⟨fun key =>
    if key = "zone_id" then some zone
    else (data key).bind id⟩

/-- `select(Company).where(Company.google_business_url == url)` over the row
    list, as first-match index; the embedded theorems use states with at most
    one match, where `scalar_one_or_none` and first-match coincide. -/
def findIdxByUrl (repo : List UCompany) (v : PyVal) : Option Nat :=
  repo.findIdx? (fun e => e.fields "google_business_url" == some v)

/-- `company_data.get("google_business_url")` followed by the Python truthiness
    guard: the lookup key, when present and truthy. -/
def truthyUrl (data : PyDict) : Option PyVal :=
  match data "google_business_url" with
  | some (some v) => if pyTruthy v then some v else none
  | _ => none

/-- Embedding of `CompanyService.create_or_update_company` (lines 13-44):
    update the first row matching a truthy google url, otherwise append a new
    row; returns the row list and the index of the affected row (the defensive
    inner `none` arm is unreachable since the found index is in range). -/
def create_or_update_company (repo : List UCompany) (data : PyDict) (zone : PyVal) :
    List UCompany × Nat :=
  match truthyUrl data with
  | some v =>
      match findIdxByUrl repo v with
      | some i =>
          match repo.get? i with
          | some e => (repo.set i (updateEntity e data zone), i)
          | none => (repo ++ [createEntity data zone], repo.length)
      | none => (repo ++ [createEntity data zone], repo.length)
  | none => (repo ++ [createEntity data zone], repo.length)

/-- The crawl statistics touched by the per-record loop of
    `crawl_and_enrich_zone`. -/
structure CrawlStats where
  companies_new : Nat := 0
  companies_updated : Nat := 0
  stage_breakdown : String → Nat := fun _ => 0

/-- The six value strings of the `ScrapingStage` enum; `ScrapingStage(x)`
    succeeds exactly on these. -/
def validStages : List String :=
  ["initial", "google_maps", "website_scraped", "facebook_scraped", "fully_enriched", "failed"]

/-- `stats['stage_breakdown'][s] = stats['stage_breakdown'].get(s, 0) + 1`. -/
def incrStage (bd : String → Nat) (s : String) : String → Nat :=
  fun k => if k = s then bd k + 1 else bd k

/-- One iteration of the crawl persistence loop of `crawl_and_enrich_zone`
    (lines 107-151): existence check on the google url, upsert, then the
    stage assignment — a new company gets stage "initial"; an existing one
    with falsy or "initial" stage (or an invalid stage string, via the caught
    ValueError) is set to "google_maps", any other valid stage is kept.
    Returns the row list, the statistics, and the company object the
    iteration ends with. -/
def processRecord (repo : List UCompany) (data : PyDict) (zone : PyVal)
    (stats : CrawlStats) : List UCompany × CrawlStats × UCompany :=
  let existing : Bool :=
    match truthyUrl data with
    | some v => (findIdxByUrl repo v).isSome
    | none => false
  let up := create_or_update_company repo data zone
  let comp : UCompany :=
    match up.1.get? up.2 with
    | some e => e
    | none => createEntity data zone
  if existing then
    let stats1 := { stats with companies_updated := stats.companies_updated + 1 }
    let stageVal := comp.fields "scraping_stage"
    let notSet : Bool := match stageVal with | none => true | some v => !pyTruthy v
    let isInitial : Bool := stageVal == some (.vStr "initial")
    if notSet || isInitial then
      let comp2 := setField comp "scraping_stage" (some (.vStr "google_maps"))
      (up.1.set up.2 comp2,
       { stats1 with stage_breakdown := incrStage stats1.stage_breakdown "google_maps" },
       comp2)
    else
      match stageVal with
      | some (.vStr s) =>
          if s ∈ validStages then
            (up.1, { stats1 with stage_breakdown := incrStage stats1.stage_breakdown s }, comp)
          else
            let comp2 := setField comp "scraping_stage" (some (.vStr "google_maps"))
            (up.1.set up.2 comp2,
             { stats1 with stage_breakdown := incrStage stats1.stage_breakdown "google_maps" },
             comp2)
      | _ =>
          let comp2 := setField comp "scraping_stage" (some (.vStr "google_maps"))
          (up.1.set up.2 comp2,
           { stats1 with stage_breakdown := incrStage stats1.stage_breakdown "google_maps" },
           comp2)
  else
    let comp2 := setField comp "scraping_stage" (some (.vStr "initial"))
    (up.1.set up.2 comp2,
     { stats with companies_new := stats.companies_new + 1,
                  stage_breakdown := incrStage stats.stage_breakdown "initial" },
     comp2)

/-- Concrete discovered-new record for the C4 counterexample. -/
def d4 : PyDict := fun k =>
  if k = "name" then some (some (.vStr "Joes Towing"))
  else if k = "google_business_url" then some (some (.vStr "https://maps.google.com/j"))
  else none

/-- Concrete record and matching stored row for the C4-amended witness. -/
def dEx : PyDict := fun key =>
  if key = "name" then some (some (.vStr "X Towing"))
  else if key = "google_business_url" then some (some (.vStr "gbu-x"))
  else none

/-- Stored row matching `dEx` with no stage set. -/
def eEx : UCompany :=
  ⟨fun key =>
    if key = "google_business_url" then some (.vStr "gbu-x")
    else if key = "name" then some (.vStr "X Towing")
    else none⟩

/-- First-discovery record for the C8 witness. -/
def d8a : PyDict := fun key =>
  if key = "google_business_url" then some (some (.vStr "gbu-8"))
  else if key = "name" then some (some (.vStr "First Name"))
  else if key = "phone_primary" then some (some (.vStr "555-0100"))
  else none

/-- Repeat-discovery record for the C8 witness, same key, new field values. -/
def d8b : PyDict := fun key =>
  if key = "google_business_url" then some (some (.vStr "gbu-8"))
  else if key = "name" then some (some (.vStr "Updated Name"))
  else if key = "phone_primary" then some (some (.vStr "555-0300"))
  else none

/-- Stored row and incoming dict for the C10 witness. -/
def sampleRow : UCompany :=
  ⟨fun key =>
    if key = "name" then some (.vStr "Old Name")
    else if key = "phone_primary" then some (.vStr "555-0100")
    else if key = "google_business_url" then some (.vStr "gbu-s")
    else none⟩

/-- Incoming dict for the C10 witness: name overwritten, phone present with
    value None. -/
def sampleUpdate : PyDict := fun key =>
  if key = "name" then some (some (.vStr "New Name"))
  else if key = "phone_primary" then some none
  else if key = "google_business_url" then some (some (.vStr "gbu-s"))
  else none

/-! ## Concurrency model of `_scrape_websites_batch` (lines 180-204)

    `asyncio.gather` creates one task per company in input order; when first
    run by the event loop (in creation order, hence no task may begin before
    every earlier task has begun), each task suspends on `async with semaphore`
    — an `asyncio.Semaphore(settings.website_scrape_concurrent)` whose waiters
    acquire in FIFO order — runs its fetch + classify + stage-update body while
    holding a permit, and releases the permit on exit. Completions are
    unordered: any running task may finish at any time. A task therefore
    occupies one of four phases, and one scheduler step changes one task. -/

inductive TaskPhase where
  | pending
  | waiting
  | running
  | done
  deriving Repr, DecidableEq

/-- Semaphore permits still available plus the phase of every task, in input
    order. -/
structure BatchState where
  sem : Nat
  tasks : List TaskPhase
  deriving Repr, DecidableEq

/-- State at the `asyncio.gather` call: all permits free, every task created
    but not yet run. -/
def initBatch (bound : Nat) (n : Nat) : BatchState :=
  { sem := bound, tasks := List.replicate n .pending }

/-- A task that has begun (or finished) its fetch+classify body. -/
def isDispatched : TaskPhase → Bool
  | .running => true
  | .done => true
  | _ => false

/-- Progress order of phases: dispatched tasks (running or done, completions
    being unordered) sit lowest, then the semaphore queue, then tasks the
    event loop has not started. -/
def phaseRank : TaskPhase → Nat
  | .running => 0
  | .done => 0
  | .waiting => 1
  | .pending => 2

/-- One scheduler step: a task first runs up to the semaphore (only after all
    earlier tasks have), a waiting task acquires a free permit (FIFO: only
    when every earlier task already holds or has released one), a running task
    finishes and releases its permit. -/
inductive BatchStep : BatchState → BatchState → Prop where
  | start (sem : Nat) (l r : List TaskPhase)
      (hl : ∀ t ∈ l, t ≠ TaskPhase.pending) :
      BatchStep ⟨sem, l ++ TaskPhase.pending :: r⟩ ⟨sem, l ++ TaskPhase.waiting :: r⟩
  | acquire (sem : Nat) (l r : List TaskPhase)
      (hl : ∀ t ∈ l, isDispatched t = true) :
      BatchStep ⟨sem + 1, l ++ TaskPhase.waiting :: r⟩ ⟨sem, l ++ TaskPhase.running :: r⟩
  | finish (sem : Nat) (l r : List TaskPhase) :
      BatchStep ⟨sem, l ++ TaskPhase.running :: r⟩ ⟨sem + 1, l ++ TaskPhase.done :: r⟩

/-- States reachable during one batch execution with concurrency bound
    `bound` over `n` companies. -/
def BatchReachable (bound n : Nat) (s : BatchState) : Prop :=
  Relation.ReflTransGen BatchStep (initBatch bound n) s

/-- Number of fetch+classify operations currently in flight. -/
def runningCount (s : BatchState) : Nat :=
  s.tasks.countP (fun t => t == TaskPhase.running)

/-! ## Theorems -/

theorem foldl_match_count (tl hl : String) (l : List String) : ∀ n : Nat,
    l.foldl (fun acc k =>
        acc + (if pyIn k tl then 1 else 0) + (if pyIn k hl then 1 else 0)) n
      = n + l.countP (fun k => pyIn k tl) + l.countP (fun k => pyIn k hl) := by
  induction l with
  | nil => intro n; simp
  | cons k ks ih =>
      intro n
      simp only [List.foldl_cons, List.countP_cons, ih]
      by_cases h1 : pyIn k tl <;> by_cases h2 : pyIn k hl <;> simp [h1, h2] <;> omega

/-- C2: for inputs containing no negation phrase, `check_impound_service` counts
    one hit per impound keyword per source (lowercase text and lowercase html
    counted separately and summed, the same keyword in both sources counting
    twice) and maps the total to exactly 0 ↦ (false, 0.3), 1 ↦ (true, 0.6),
    2 ↦ (true, 0.8), ≥3 ↦ (true, 0.95). -/
theorem check_impound_confidence_mapping (html text : String)
    (hneg : ∀ k ∈ negative_keywords,
      pyIn k (pyLower text) = false ∧ pyIn k (pyLower html) = false) :
    (matchTotal html text = 0 →
        check_impound_service html text = { has_impound := false, confidence := 3/10 }) ∧
    (matchTotal html text = 1 →
        check_impound_service html text = { has_impound := true, confidence := 6/10 }) ∧
    (matchTotal html text = 2 →
        check_impound_service html text = { has_impound := true, confidence := 8/10 }) ∧
    (3 ≤ matchTotal html text →
        check_impound_service html text = { has_impound := true, confidence := 95/100 }) := by
  have hany : (negative_keywords.any fun k => pyIn k (pyLower text) || pyIn k (pyLower html)) = false := by
    rw [List.any_eq_false]
    intro k hk
    simp [(hneg k hk).1, (hneg k hk).2]
  have hmt : impound_keywords.foldl
      (fun acc k => acc + (if pyIn k (pyLower text) then 1 else 0)
        + (if pyIn k (pyLower html) then 1 else 0)) 0 = matchTotal html text := by
    rw [foldl_match_count (pyLower text) (pyLower html) impound_keywords 0, matchTotal]; omega
  have key : check_impound_service html text =
      (if matchTotal html text = 0 then { has_impound := false, confidence := 3/10 }
       else if matchTotal html text = 1 then { has_impound := true, confidence := 6/10 }
       else if matchTotal html text = 2 then { has_impound := true, confidence := 8/10 }
       else { has_impound := true, confidence := 95/100 }) := by
    unfold check_impound_service
    simp only [hany, Bool.false_eq_true, if_false, hmt]
  refine ⟨fun h => by rw [key]; simp [h],
          fun h => by rw [key]; simp [h],
          fun h => by rw [key]; simp [h],
          fun h => by rw [key, if_neg (by omega), if_neg (by omega), if_neg (by omega)]⟩

/-- Witness for C2: a concrete negation-free input with total count 2 yields
    (true, 0.8); the keyword hits are "impound" and "impound yard", both from
    the html side. -/
theorem check_impound_confidence_mapping_witness :
    matchTotal "impound yard" "towing" = 2 ∧
    check_impound_service "impound yard" "towing" = { has_impound := true, confidence := 8/10 } :=
  ⟨by decide,
   (check_impound_confidence_mapping "impound yard" "towing" (by decide)).2.2.1 (by decide)⟩

/-- C7: whenever a negation phrase occurs as a substring of the lowercase text
    or of the lowercase html, `check_impound_service` returns (false, 0.9),
    regardless of how many positive impound keywords also occur. -/
theorem check_impound_negation_precedence (html text : String)
    (h : ∃ k ∈ negative_keywords,
      pyIn k (pyLower text) = true ∨ pyIn k (pyLower html) = true) :
    check_impound_service html text = { has_impound := false, confidence := 9/10 } := by
  obtain ⟨k, hk, hin⟩ := h
  have hany : (negative_keywords.any fun k => pyIn k (pyLower text) || pyIn k (pyLower html)) = true :=
    List.any_eq_true.mpr ⟨k, hk, by rcases hin with h | h <;> simp [h]⟩
  unfold check_impound_service
  simp only [hany, if_true]

/-- Witness for C7: html rich in positive keywords plus one negation phrase in
    the text still yields (false, 0.9). -/
theorem check_impound_negation_precedence_witness :
    check_impound_service "our impound lot has vehicle impound and impound storage"
        "but we do not impound here"
      = { has_impound := false, confidence := 9/10 } :=
  check_impound_negation_precedence
    "our impound lot has vehicle impound and impound storage"
    "but we do not impound here" (by decide)

/-- C1 (evaluation at the failing input): a batch of one company whose page
    fetch fails is reported as success == 1, failed == 0, and the row ends with
    website_scrape_status = "success" and stage "website_scraped".
    `scrape_website` swallows the fetch error (it returns status "failed"
    instead of raising), `enrich_company` records that status and returns
    normally, and `scrape_with_limit` then overwrites the status with "success"
    and counts the entity as a success — contrary to the claimed
    status="failed" / stage FAILED / failed == K accounting. -/
theorem batch_counts_fetch_failure_as_success :
    (scrape_websites_batch (fun _ _ => none) 7
        [({ name := "Acme Towing", website := some "http://acme-towing.example" }, .fetch .err)]).2.success = 1 ∧
    (scrape_websites_batch (fun _ _ => none) 7
        [({ name := "Acme Towing", website := some "http://acme-towing.example" }, .fetch .err)]).2.failed = 0 ∧
    ((scrape_websites_batch (fun _ _ => none) 7
        [({ name := "Acme Towing", website := some "http://acme-towing.example" }, .fetch .err)]).1.map
      (fun r => (r.company.website_scrape_status, r.company.scraping_stage)))
      = [(some "success", some "website_scraped")] :=
  ⟨rfl, rfl, rfl⟩

/-- C5 (evaluation at the failing input): a company whose website lacks an
    http(s) scheme is never dispatched to the fetcher (the no_website
    short-circuit fires before any fetch), but the batch then stamps its row
    stage "website_scraped" and status "success" and counts it a success —
    contrary to the claimed no_website outcome with the stage left unchanged. -/
theorem no_scheme_url_skips_fetch_but_advances_stage :
    ((scrape_websites_batch (fun _ _ => none) 3
        [({ name := "B Towing", website := some "www.example.com",
            scraping_stage := some "google_maps" }, .fetch (.ok "<html></html>" "welcome"))]).1.map
      (fun r => (r.fetcher_called, r.company.scraping_stage, r.company.website_scrape_status)))
      = [(false, some "website_scraped", some "success")] ∧
    (scrape_websites_batch (fun _ _ => none) 3
        [({ name := "B Towing", website := some "www.example.com",
            scraping_stage := some "google_maps" }, .fetch (.ok "<html></html>" "welcome"))]).2.success = 1 :=
  ⟨rfl, rfl⟩

/-- C3 counterexample: a FULLY_ENRICHED company with a stale scrape timestamp
    is selected by `refresh_stale_companies` and its stage is regressed to
    WEBSITE_SCRAPED by the ensuing successful scrape — refuting stage
    monotonicity under success as claimed. -/
theorem refresh_regresses_fully_enriched :
    staleSelect 60 none
      { name := "C Towing", zone_id := 1, website := some "https://c-towing.example",
        website_scraped_at := some 0, website_scrape_status := some "success",
        scraping_stage := some "fully_enriched" } = true ∧
    ((refresh_stale_companies (fun _ _ => none) 90
        [{ name := "C Towing", zone_id := 1, website := some "https://c-towing.example",
           website_scraped_at := some 0, website_scrape_status := some "success",
           scraping_stage := some "fully_enriched" }]
        (fun _ => .fetch (.ok "" "")) 60 none 50).1.map
      (fun r => r.company.scraping_stage)) = [some "website_scraped"] :=
  ⟨rfl, rfl⟩

/-- C3 amended: a website scrape whose `enrich_company` call returns (any fetch
    outcome, success or failure) unconditionally sets the entity's stage to
    WEBSITE_SCRAPED and counts a success, regardless of the prior stage; stage
    monotonicity therefore holds only for entities at or below WEBSITE_SCRAPED,
    and a FULLY_ENRICHED entity is regressed by a later successful scrape. -/
theorem scrape_always_sets_website_scraped
    (hoursFn : String → String → Option HoursData) (now : Nat)
    (c : Company) (f : FetchOutcome) :
    (scrape_with_limit hoursFn now c (.fetch f)).company.scraping_stage
        = some "website_scraped" ∧
    (scrape_with_limit hoursFn now c (.fetch f)).counted_success = true :=
  ⟨rfl, rfl⟩

/-- C6 counterexample: a listing record that has a name but no external-listing
    key is dropped by `_map_apify_result`, although the claim says a record
    with at least one of the two identity fields is kept. -/
theorem record_with_name_only_dropped :
    mapApifyResult { title := "Joes Towing" } = none ∧ "Joes Towing" ≠ "" :=
  ⟨rfl, by decide⟩

/-- C6 amended: a raw listing record survives the mapper (and is then upserted
    by the crawl loop) if and only if BOTH identity fields are present — it is
    silently dropped exactly when the name or the external-listing key is
    missing or empty. -/
theorem mapApifyResult_keeps_iff_identity_fields (item : ApifyItem) :
    (mapApifyResult item).isSome ↔ (item.title ≠ "" ∧ item.url ≠ "") := by
  unfold mapApifyResult
  by_cases h1 : item.title = "" <;> by_cases h2 : item.url = "" <;> simp [h1, h2]

theorem processRecord_nil (data : PyDict) (zone : PyVal) (stats : CrawlStats) :
    processRecord [] data zone stats =
      ([setField (createEntity data zone) "scraping_stage" (some (.vStr "initial"))],
       { stats with companies_new := stats.companies_new + 1,
                    stage_breakdown := incrStage stats.stage_breakdown "initial" },
       setField (createEntity data zone) "scraping_stage" (some (.vStr "initial"))) := by
  cases htu : truthyUrl data <;>
    simp [processRecord, htu, create_or_update_company, findIdxByUrl]

theorem processRecord_existing_initial (e : UCompany) (data : PyDict) (zone : PyVal)
    (stats : CrawlStats) (k : String) (hk : k ≠ "")
    (hd : data "google_business_url" = some (some (.vStr k)))
    (he : e.fields "google_business_url" = some (.vStr k))
    (hstage : (updateEntity e data zone).fields "scraping_stage" = some (.vStr "initial")) :
    processRecord [e] data zone stats =
      ([setField (updateEntity e data zone) "scraping_stage" (some (.vStr "google_maps"))],
       { stats with companies_updated := stats.companies_updated + 1,
                    stage_breakdown := incrStage stats.stage_breakdown "google_maps" },
       setField (updateEntity e data zone) "scraping_stage" (some (.vStr "google_maps"))) := by
  have htruthy : truthyUrl data = some (.vStr k) := by simp [truthyUrl, hd, pyTruthy, hk]
  have hfind : findIdxByUrl [e] (.vStr k) = some 0 := by
    simp [findIdxByUrl, List.findIdx?, he]
  simp [processRecord, htruthy, hfind, create_or_update_company, hstage, pyTruthy]

/-- C10: when the upsert updates an existing row, every key whose incoming
    value is None (or which is absent from the dict) leaves the stored
    attribute unchanged, every key with a non-None incoming value overwrites
    it, and zone_id is always set to the supplied zone regardless of the
    incoming record. -/
theorem update_preserves_none_fields (e : UCompany) (data : PyDict) (zone : PyVal)
    (key : String) :
    (key ≠ "zone_id" → (data key = none ∨ data key = some none) →
        (updateEntity e data zone).fields key = e.fields key) ∧
    (∀ v, key ≠ "zone_id" → data key = some (some v) →
        (updateEntity e data zone).fields key = some v) ∧
    (updateEntity e data zone).fields "zone_id" = some zone := by
  refine ⟨fun hk hd => ?_, fun v hk hd => ?_, ?_⟩
  · rcases hd with hd | hd <;> simp [updateEntity, hk, hd]
  · simp [updateEntity, hk, hd]
  · simp [updateEntity]

/-- Witness for C10 at a concrete row and dict: the present-with-None phone is
    preserved, the non-None name is overwritten, zone_id is set. -/
theorem update_preserves_none_fields_witness :
    (sampleUpdate "phone_primary" = some none ∧
     (updateEntity sampleRow sampleUpdate (.vId 3)).fields "phone_primary"
        = sampleRow.fields "phone_primary") ∧
    (sampleUpdate "name" = some (some (.vStr "New Name")) ∧
     (updateEntity sampleRow sampleUpdate (.vId 3)).fields "name"
        = some (.vStr "New Name")) ∧
    (updateEntity sampleRow sampleUpdate (.vId 3)).fields "zone_id" = some (.vId 3) :=
  ⟨⟨rfl, (update_preserves_none_fields sampleRow sampleUpdate (.vId 3) "phone_primary").1
      (by decide) (Or.inr rfl)⟩,
   ⟨rfl, (update_preserves_none_fields sampleRow sampleUpdate (.vId 3) "name").2.1
      (.vStr "New Name") (by decide) rfl⟩,
   (update_preserves_none_fields sampleRow sampleUpdate (.vId 3) "zone_id").2.2⟩

/-- C4 counterexample: processing a listing record whose external key matches
    no stored row (the discovered_new event) sets the new row's stage to
    INITIAL — not to GOOGLE_MAPS, the stage immediately after INITIAL that the
    spec calls DISCOVERED. -/
theorem new_company_stage_initial_not_google_maps :
    (processRecord [] d4 (.vId 1) {}).2.2.fields "scraping_stage" = some (.vStr "initial") ∧
    (processRecord [] d4 (.vId 1) {}).2.1.companies_new = 1 ∧
    some (PyVal.vStr "initial") ≠ some (PyVal.vStr "google_maps") :=
  ⟨rfl, rfl, by decide⟩

/-- C4 amended: a discovered_new record creates its row with stage INITIAL
    (and increments companies_new); it is a discovered_existing record whose
    stored row has stage unset or INITIAL that is advanced to GOOGLE_MAPS, the
    stage immediately after INITIAL (incrementing companies_updated). -/
theorem discovery_stage_assignment (data : PyDict) (zone : PyVal) (stats : CrawlStats)
    (e : UCompany) (k : String) (hk : k ≠ "")
    (hd : data "google_business_url" = some (some (.vStr k)))
    (he : e.fields "google_business_url" = some (.vStr k))
    (hstage : e.fields "scraping_stage" = none ∨ e.fields "scraping_stage" = some (.vStr "initial"))
    (hds : data "scraping_stage" = none) :
    ((processRecord [] data zone stats).2.2.fields "scraping_stage" = some (.vStr "initial") ∧
     (processRecord [] data zone stats).2.1.companies_new = stats.companies_new + 1) ∧
    ((processRecord [e] data zone stats).2.2.fields "scraping_stage" = some (.vStr "google_maps") ∧
     (processRecord [e] data zone stats).2.1.companies_updated = stats.companies_updated + 1) := by
  have hku : ("scraping_stage" : String) ≠ "zone_id" := by decide
  have htruthy : truthyUrl data = some (.vStr k) := by
    simp [truthyUrl, hd, pyTruthy, hk]
  constructor
  · constructor
    · simp [processRecord, htruthy, findIdxByUrl, create_or_update_company, setField]
    · simp [processRecord, htruthy, findIdxByUrl, create_or_update_company]
  · have hfind : findIdxByUrl [e] (.vStr k) = some 0 := by
      simp [findIdxByUrl, List.findIdx?, he]
    have hupd : (updateEntity e data zone).fields "scraping_stage"
        = e.fields "scraping_stage" := by
      simp [updateEntity, hku, hds]
    rcases hstage with hs | hs
    · constructor
      · simp [processRecord, htruthy, hfind, create_or_update_company, hupd, hs, setField]
      · simp [processRecord, htruthy, hfind, create_or_update_company, hupd, hs]
    · constructor
      · simp [processRecord, htruthy, hfind, create_or_update_company, hupd, hs, setField,
          pyTruthy]
      · simp [processRecord, htruthy, hfind, create_or_update_company, hupd, hs]

/-- Witness for the C4-amended theorem at a concrete record: the new row ends
    at stage "initial"; re-discovering a stored row without a stage advances
    it to "google_maps". -/
theorem discovery_stage_assignment_witness :
    (processRecord [] dEx (.vId 2) {}).2.2.fields "scraping_stage" = some (.vStr "initial") ∧
    (processRecord [eEx] dEx (.vId 2) {}).2.2.fields "scraping_stage"
      = some (.vStr "google_maps") :=
  ⟨(discovery_stage_assignment dEx (.vId 2) {} eEx "gbu-x" (by decide) rfl rfl
      (Or.inl rfl) rfl).1.1,
   (discovery_stage_assignment dEx (.vId 2) {} eEx "gbu-x" (by decide) rfl rfl
      (Or.inl rfl) rfl).2.1⟩

/-- C8: discovering the same external-listing key twice, starting from a store
    without that key, yields exactly one row; the first call counts
    companies_new = 1, the repeat counts companies_updated = 1, and every
    non-None field of the second record is reflected on the single stored row
    (stage and zone are owned by the loop itself). -/
theorem upsert_idempotent_per_key (zone : PyVal) (d1 d2 : PyDict) (k : String)
    (hk : k ≠ "")
    (h1 : d1 "google_business_url" = some (some (.vStr k)))
    (h2 : d2 "google_business_url" = some (some (.vStr k)))
    (h2s : d2 "scraping_stage" = none) :
    (processRecord [] d1 zone {}).2.1.companies_new = 1 ∧
    (processRecord [] d1 zone {}).2.1.companies_updated = 0 ∧
    (processRecord (processRecord [] d1 zone {}).1 d2 zone {}).2.1.companies_new = 0 ∧
    (processRecord (processRecord [] d1 zone {}).1 d2 zone {}).2.1.companies_updated = 1 ∧
    (processRecord (processRecord [] d1 zone {}).1 d2 zone {}).1.length = 1 ∧
    (∀ key v, key ≠ "scraping_stage" → key ≠ "zone_id" → d2 key = some (some v) →
      (processRecord (processRecord [] d1 zone {}).1 d2 zone {}).2.2.fields key = some v) ∧
    (processRecord (processRecord [] d1 zone {}).1 d2 zone {}).2.2.fields "google_business_url"
      = some (.vStr k) ∧
    (processRecord (processRecord [] d1 zone {}).1 d2 zone {}).1.get? 0
      = some (processRecord (processRecord [] d1 zone {}).1 d2 zone {}).2.2 := by
  have hgu : ("google_business_url" : String) ≠ "scraping_stage" := by decide
  have hgz : ("google_business_url" : String) ≠ "zone_id" := by decide
  have hku : ("scraping_stage" : String) ≠ "zone_id" := by decide
  have he1url : (setField (createEntity d1 zone) "scraping_stage"
      (some (.vStr "initial"))).fields "google_business_url" = some (.vStr k) := by
    simp [setField, createEntity, hgu, hgz, h1]
  have hupd : (updateEntity (setField (createEntity d1 zone) "scraping_stage"
      (some (.vStr "initial"))) d2 zone).fields "scraping_stage"
      = some (.vStr "initial") := by
    simp [updateEntity, hku, h2s, setField]
  rw [processRecord_nil d1 zone {}]
  rw [processRecord_existing_initial _ d2 zone {} k hk h2 he1url hupd]
  refine ⟨rfl, rfl, rfl, rfl, rfl, ?_, ?_, rfl⟩
  · intro key v hks hkz hd2
    simp [setField, hks, updateEntity, hkz, hd2]
  · simp [setField, hgu, updateEntity, hgz, h2]

/-- Witness for C8 at concrete records: one row after both calls, new then
    updated counted once each, and the name reflects the second record. -/
theorem upsert_idempotent_per_key_witness :
    (processRecord [] d8a (.vId 9) {}).2.1.companies_new = 1 ∧
    (processRecord (processRecord [] d8a (.vId 9) {}).1 d8b (.vId 9) {}).2.1.companies_updated = 1 ∧
    (processRecord (processRecord [] d8a (.vId 9) {}).1 d8b (.vId 9) {}).2.2.fields "name"
      = some (.vStr "Updated Name") :=
  ⟨(upsert_idempotent_per_key (.vId 9) d8a d8b "gbu-8" (by decide) rfl rfl rfl).1,
   (upsert_idempotent_per_key (.vId 9) d8a d8b "gbu-8" (by decide) rfl rfl rfl).2.2.2.1,
   (upsert_idempotent_per_key (.vId 9) d8a d8b "gbu-8" (by decide) rfl rfl rfl).2.2.2.2.2.1
      "name" (.vStr "Updated Name") (by decide) (by decide) rfl⟩

theorem batch_inv (bound n : Nat) (s : BatchState) (h : BatchReachable bound n s) :
    runningCount s + s.sem = bound ∧
    List.Pairwise (fun a b => phaseRank a ≤ phaseRank b) s.tasks := by
  induction h with
  | refl =>
      constructor
      · have hz : (List.replicate n TaskPhase.pending).countP
            (fun t => t == TaskPhase.running) = 0 := by
          induction n with
          | zero => simp
          | succ m ih => simp [List.replicate, List.countP_cons, ih]
        simp [runningCount, initBatch, hz]
      · have hrep : ∀ m : Nat, List.Pairwise (fun a b => phaseRank a ≤ phaseRank b)
            (List.replicate m TaskPhase.pending) := by
          intro m
          induction m with
          | zero => simp
          | succ j ih =>
              simp only [List.replicate, List.pairwise_cons]
              refine ⟨?_, ih⟩
              intro b hb
              have hb2 := List.eq_of_mem_replicate hb
              simp [hb2]
        exact hrep n
  | tail hsteps hstep ih =>
      obtain ⟨ihc, ihp⟩ := ih
      cases hstep with
      | start sem l r hl =>
          constructor
          · simp only [runningCount, List.countP_append, List.countP_cons] at ihc ⊢
            simpa using ihc
          · rw [List.pairwise_append] at ihp ⊢
            obtain ⟨hpl, hpr, hlr⟩ := ihp
            rw [List.pairwise_cons] at hpr ⊢
            refine ⟨hpl, ⟨?_, hpr.2⟩, ?_⟩
            · intro b hb
              have h2 := hpr.1 b hb
              simp [phaseRank] at h2 ⊢
              omega
            · intro a ha b hb
              rcases List.mem_cons.mp hb with hb | hb
              · subst hb
                have ha2 := hl a ha
                cases a <;> simp [phaseRank] at ha2 ⊢
              · exact hlr a ha b (List.mem_cons_of_mem _ hb)
      | acquire sem l r hl =>
          constructor
          · simp only [runningCount, List.countP_append, List.countP_cons] at ihc ⊢
            simp at ihc ⊢
            omega
          · rw [List.pairwise_append] at ihp ⊢
            obtain ⟨hpl, hpr, hlr⟩ := ihp
            rw [List.pairwise_cons] at hpr ⊢
            refine ⟨hpl, ⟨?_, hpr.2⟩, ?_⟩
            · intro b hb
              simp [phaseRank]
            · intro a ha b hb
              rcases List.mem_cons.mp hb with hb | hb
              · subst hb
                have ha2 := hl a ha
                cases a <;> simp [isDispatched] at ha2 <;> simp [phaseRank]
              · exact hlr a ha b (List.mem_cons_of_mem _ hb)
      | finish sem l r =>
          constructor
          · simp only [runningCount, List.countP_append, List.countP_cons] at ihc ⊢
            simp at ihc ⊢
            omega
          · rw [List.pairwise_append] at ihp ⊢
            obtain ⟨hpl, hpr, hlr⟩ := ihp
            rw [List.pairwise_cons] at hpr ⊢
            refine ⟨hpl, ⟨?_, hpr.2⟩, ?_⟩
            · intro b hb
              have h2 := hpr.1 b hb
              simp [phaseRank]
            · intro a ha b hb
              rcases List.mem_cons.mp hb with hb | hb
              · subst hb
                have ha2 := hlr a ha TaskPhase.running (List.mem_cons_self _ _)
                simpa [phaseRank] using ha2
              · exact hlr a ha b (List.mem_cons_of_mem _ hb)

/-- C9: in every state reachable during a batch execution with concurrency
    bound B, at most B fetch+classify operations are in flight; moreover the
    phase sequence is monotone in input order — tasks are dispatched in input
    order (every dispatched task is preceded only by dispatched tasks), while
    running and done share a rank, leaving completions unordered. -/
theorem batch_concurrency_bound (bound n : Nat) (s : BatchState)
    (h : BatchReachable bound n s) :
    runningCount s ≤ bound ∧
    List.Pairwise (fun a b => phaseRank a ≤ phaseRank b) s.tasks := by
  obtain ⟨hc, hp⟩ := batch_inv bound n s h
  exact ⟨by omega, hp⟩

/-- Witness for C9: with the default bound 5 and three companies, the state
    after the first task starts and acquires a permit is reachable and
    satisfies the bound and the dispatch-order invariant. -/
theorem batch_concurrency_bound_witness :
    runningCount ⟨4, [TaskPhase.running, TaskPhase.pending, TaskPhase.pending]⟩ ≤ 5 ∧
    List.Pairwise (fun a b => phaseRank a ≤ phaseRank b)
      [TaskPhase.running, TaskPhase.pending, TaskPhase.pending] :=
  batch_concurrency_bound 5 3 ⟨4, [TaskPhase.running, TaskPhase.pending, TaskPhase.pending]⟩
    (Relation.ReflTransGen.tail
      (Relation.ReflTransGen.tail Relation.ReflTransGen.refl
        (BatchStep.start 5 [] [TaskPhase.pending, TaskPhase.pending] (by simp)))
      (BatchStep.acquire 4 [] [TaskPhase.pending, TaskPhase.pending] (by simp)))

end TowScrape
